import Mathlib

/-!
Verification of the authentication and session-lifecycle core of the
filter-dev-app backend.

The development shallowly embeds the JavaScript sources:
  - `src/services/token.service.js` (generateAccessToken, generateRefreshToken,
    refreshAccessToken, setRefreshTokenCookie),
  - `src/services/auth.service.js` (loginUser, logoutUser),
  - `src/errors/appError.js` and `src/errors/index.js`,
  - `src/models/userModel.js` (userSchema field list),
  - `src/middlewares/auth.middleware.js`,
  - `src/config/env.js`.

Conventions of the embedding:
  - JWTs are modelled symbolically: `TokenStr.signed payload key exp` stands for
    the string produced by jwt.sign; `jwtVerify` succeeds exactly when the keys
    match and the token is unexpired (the standard symbolic model of HMAC
    signatures: no forgery, deterministic injective encoding).
  - MongoDB documents are schemaless, so a raw user document may carry paths
    that `userSchema` does not declare; reads performed with `.lean()` return
    the raw document.  Mongoose *strict mode* (the default; userSchema sets no
    `strict` option) strips paths that are not declared in the schema from
    update operations.  `strictPath` makes that filter explicit at every
    update call site.
  - JavaScript value coercions that the code relies on (`undefined + 1 = NaN`,
    `NaN >= 5 = false`, `!n == 3`, falsiness of `""`/`0`/`undefined`) are
    modelled by small explicitly-named helper functions.
  - Timestamps are milliseconds since the epoch (`Nat`, as `Date.now()` is
    non-negative); JWT `iat`/`exp` are in seconds, matching jsonwebtoken.
  - `jwt.sign` may throw (library failure); a `SignOracle` argument decides
    whether a given signing attempt throws and with which message.
-/

deriving instance DecidableEq for Except

namespace FilterDevApp

/-! ## JavaScript value semantics helpers -/

/-- Result of JavaScript arithmetic on a possibly-undefined number:
`undefined + 1` is `NaN`. -/
inductive JsNum where
  | nan
  | num (n : Nat)
  deriving DecidableEq

/-- JS `x + 1` where `x` is a field that may be `undefined` (absent):
`undefined + 1 = NaN`. -/
def jsAddOne : Option Nat → JsNum
  | none => JsNum.nan
  | some n => JsNum.num (n + 1)

/-- JS `x >= b`: any comparison with `NaN` is false. -/
def jsGe (x : JsNum) (b : Nat) : Bool :=
  match x with
  | JsNum.nan => false
  | JsNum.num n => b ≤ n

/-- JS truthiness of a possibly-undefined boolean field: `undefined` is falsy. -/
def jsTruthy : Option Bool → Bool
  | none => false
  | some b => b

/-- JS `lockUntil > now` where `lockUntil` may be `undefined` or `null`:
`undefined > now` is false (NaN comparison) and `null > now` coerces `null`
to `0`, which is never greater than a non-negative clock. -/
def jsGtNow : Option Nat → Nat → Bool
  | none, _ => false
  | some t, now => now < t

/-! ## Symbolic JWT model -/

/-- A JWT payload as built by token.service.js.  Access tokens carry `role`
and no `version`; refresh tokens carry `version` and no `role`.  Reading an
absent claim in JS yields `undefined`, hence the `Option` fields. -/
structure Payload where
  id : Nat
  role : Option String := none
  version : Option Nat := none
  iss : String
  aud : String
  iat : Nat
  deriving DecidableEq

/-- A string presented as a token: either a well-formed JWT produced by
jwt.sign (payload, signing key, absolute expiry in seconds) or any other
string. -/
inductive TokenStr where
  | signed (payload : Payload) (key : String) (exp : Nat)
  | raw (s : String)
  deriving DecidableEq

/-- The two error classes jsonwebtoken's verify can throw. -/
inductive JwtError where
  | tokenExpired
  | jsonWebToken
  deriving DecidableEq

/-- jwt.verify(token, key): structural/signature failures raise
JsonWebTokenError; an expired token (clock in seconds at or past `exp`)
raises TokenExpiredError; otherwise the decoded payload is returned.
`now` is in milliseconds; jsonwebtoken compares `exp` against
`Math.floor(Date.now() / 1000)`. -/
def jwtVerify (t : TokenStr) (key : String) (now : Nat) : Except JwtError Payload :=
  match t with
  | TokenStr.raw _ => Except.error JwtError.jsonWebToken
  | TokenStr.signed p k exp =>
    if k ≠ key then Except.error JwtError.jsonWebToken
    else if exp ≤ now / 1000 then Except.error JwtError.tokenExpired
    else Except.ok p

/-- Number of dot-separated segments of the presented string (the length
of `s.split(".")`, i.e. one more than the number of dots); a signed JWT
has exactly three. -/
def segmentCount : TokenStr → Nat
  | TokenStr.signed _ _ _ => 3
  | TokenStr.raw s => (s.toList.filter (· = '.')).length + 1

/-- Decides whether a given jwt.sign call throws, and with which message
(`none` = signing succeeds).  Models library-level signing failure. -/
def SignOracle : Type := Payload → String → Option String

/-- jwt.sign(payload, key, options) with `exp` already computed from
`payload.iat + expiresIn` (jsonwebtoken uses the payload's `iat` as the
base timestamp when one is present). -/
def jwtSign (sf : SignOracle) (p : Payload) (key : String) (exp : Nat) :
    Except String TokenStr :=
  match sf p key with
  | some msg => Except.error msg
  | none => Except.ok (TokenStr.signed p key exp)

/-! ## Error classes (src/errors/appError.js, src/errors/index.js) -/

/-- appError.js: `AppError extends Error` with `message`, `statusCode`,
`code` (default null) and `details` (default null; omitted here — every
call site in the embedded core passes no structured details). -/
structure AppError where
  message : String
  statusCode : Nat
  code : Option String := none
  deriving DecidableEq

/-- errors/index.js:3-7. -/
def AuthenticationError (message : String := "Authentication failed") : AppError :=
  { message := message, statusCode := 401, code := some "AUTHENTICATION_ERROR" }

/-- errors/index.js:15-19.  The constructor's second parameter `unlockTime`
only feeds the (omitted) `details` object; the one call site in
auth.service.js passes no second argument. -/
def AccountLockedError (message : String := "Account is locked") : AppError :=
  { message := message, statusCode := 403, code := some "ACCOUNT_LOCKED" }

/-- errors/index.js:21-25: `constructor(message = 'Token verification failed')
{ super(message, 401, 'VERIFICATION_FAILED'); }`.  The constructor declares
only `message`; every throw site in token.service.js passes a second
positional argument (a reason code such as "MISSING_TOKEN"), which
JavaScript silently discards.  The parameter `reasonArg` records what the
call site passed; it does not reach the constructed error. -/
def TokenVerificationError (message : String := "Token verification failed")
    (reasonArg : String := "") : AppError :=
  { message := message, statusCode := 401, code := some "VERIFICATION_FAILED" }

/-- errors/index.js:27-31; as with `TokenVerificationError`, the second
positional argument passed in token.service.js is discarded by the
constructor, which hard-codes the code TOKEN_EXPIRED. -/
def TokenExpiredError (message : String := "Token has expired")
    (reasonArg : String := "") : AppError :=
  { message := message, statusCode := 403, code := some "TOKEN_EXPIRED" }

/-- errors/index.js:33-37. -/
def TokenGenerationError (message : String := "Error generating token") : AppError :=
  { message := message, statusCode := 500, code := some "GENERATION_FAILED" }

/-! ## Configuration (src/config/env.js) -/

/-- env.js defines `jwtSecretKey: process.env.JWT_SECRET` and
`jwtRefreshKey: process.env.JWT_REFRESH_SECRET`.  An unset environment
variable is modelled as `""` (like `undefined`, it is falsy, which is the
only way the code inspects it).  Note env.js defines **no** `jwtIssuer` or
`jwtAudience` field, so `config.jwtIssuer || d` and `config.jwtAudience || d`
in token.service.js always take the fallback `d`. -/
structure Config where
  jwtSecretKey : String
  jwtRefreshKey : String
  deriving DecidableEq

/-! ## User store (src/models/userModel.js and MongoDB semantics) -/

/-- A raw user document.  The first block are paths declared in
`userSchema` (userModel.js:5-78) that the auth core touches; `password`
stores the bcrypt hash (select:false in the schema, explicitly selected by
loginUser), `refreshToken` is `none` when null/absent, `tokenVersion`
defaults to 0.

The second block are paths that loginUser reads and writes but that
`userSchema` does **not** declare (the schema's fields are: name, role,
phone, email, access_code, is_active, password, refreshToken, tokenVersion,
profileImage).  MongoDB itself is schemaless and `.lean()` reads return the
raw document, so these paths may still be present on a document (`some`),
but mongoose strict mode strips them from every update this code performs. -/
structure UserDoc where
  _id : Nat
  email : String
  password : String
  role : String
  refreshToken : Option TokenStr := none
  tokenVersion : Nat := 0
  loginAttempts : Option Nat := none
  isLocked : Option Bool := none
  lockUntil : Option Nat := none
  lastLogin : Option Nat := none
  deriving DecidableEq

/-- The user collection. -/
abbrev Store := List UserDoc

/-- User.findById. -/
def findById (st : Store) (id : Nat) : Option UserDoc :=
  st.find? (fun u => u._id = id)

/-- User.findOne({ email }). -/
def findOneByEmail (st : Store) (email : String) : Option UserDoc :=
  st.find? (fun u => u.email = email)

/-- The paths declared in `userSchema` (userModel.js:5-78).  Only these
survive strict-mode update operations. -/
def userSchemaPaths : List String :=
  ["name", "role", "phone", "email", "access_code", "is_active",
   "password", "refreshToken", "tokenVersion", "profileImage"]

/-- Mongoose strict mode (the schema default): an update to `path` is
applied only if `path` is declared in `userSchema`; otherwise it is
silently stripped from the update document. -/
def strictPath (path : String) (apply : UserDoc → UserDoc) (u : UserDoc) : UserDoc :=
  if userSchemaPaths.contains path then apply u else u

/-- User.findByIdAndUpdate(id, update) / doc.updateOne(update): applies the
(strict-filtered) update to the matching document; no-op when no document
has the id (the code never inspects the returned document). -/
def updateById (st : Store) (id : Nat) (f : UserDoc → UserDoc) : Store :=
  st.map (fun u => if u._id = id then f u else u)

/-- token.service.js:83 — `User.findByIdAndUpdate(user._id,
{ tokenVersion: user.tokenVersion })` with the app-computed new version. -/
def setTokenVersionUpdate (v : Nat) : UserDoc → UserDoc :=
  strictPath "tokenVersion" (fun u => { u with tokenVersion := v })

/-- auth.service.js (failed-login branch) — `User.findByIdAndUpdate(user._id,
{ $set: { isLocked, lockUntil }, $inc: { loginAttempts: 1 } })`.
`$inc` on an absent field would create it at the increment; all three paths
are undeclared in userSchema, so strict mode strips each of them. -/
def failedLoginUpdate (isLocked : Bool) (lockUntil : Option Nat) :
    UserDoc → UserDoc :=
  strictPath "isLocked" (fun u => { u with isLocked := some isLocked }) ∘
  strictPath "lockUntil" (fun u => { u with lockUntil := lockUntil }) ∘
  strictPath "loginAttempts"
    (fun u => { u with loginAttempts := some (u.loginAttempts.getD 0 + 1) })

/-- auth.service.js (successful-login reset) — `User.findByIdAndUpdate(
user._id, { loginAttempts: 0, isLocked: false, lockUntil: null,
lastLogin: new Date() })`; none of the four paths is declared in
userSchema, so strict mode strips each of them. -/
def successLoginUpdate (now : Nat) : UserDoc → UserDoc :=
  strictPath "loginAttempts" (fun u => { u with loginAttempts := some 0 }) ∘
  strictPath "isLocked" (fun u => { u with isLocked := some false }) ∘
  strictPath "lockUntil" (fun u => { u with lockUntil := none }) ∘
  strictPath "lastLogin" (fun u => { u with lastLogin := some now })

/-- auth.service.js — `User.findByIdAndUpdate(user._id, { refreshToken })`
after issuing the refresh token (schema path, persisted). -/
def setRefreshTokenUpdate (t : TokenStr) : UserDoc → UserDoc :=
  strictPath "refreshToken" (fun u => { u with refreshToken := some t })

/-- auth.service.js (logoutUser) — `user.updateOne({ $set:
{ refreshToken: null } })` (schema path, persisted). -/
def clearRefreshTokenUpdate : UserDoc → UserDoc :=
  strictPath "refreshToken" (fun u => { u with refreshToken := none })

/-- The symbolic bcrypt hash of a password; `bcrypt.compare(p, h)` holds
exactly when `h = bcryptHash p` (collision-free model of the salted hash). -/
def bcryptHash (p : String) : String :=
  "bcrypt$" ++ p

/-- bcrypt.compare(password, storedHash). -/
def bcryptCompare (password storedHash : String) : Bool :=
  storedHash = bcryptHash password

/-! ## token.service.js -/

/-- token.service.js:30-37 — the access-token payload: id, role, the
issuer/audience fallbacks (env.js defines neither `jwtIssuer` nor
`jwtAudience`, so the `||` defaults always apply) and
`iat = Math.floor(Date.now() / 1000)`. -/
def accessPayload (user : UserDoc) (now : Nat) : Payload :=
  { id := user._id, role := some user.role, version := none,
    iss := "meme-coins-filter-dev", aud := "meme-coins-filter-dev-app",
    iat := now / 1000 }

/-- token.service.js:89-95 — the refresh-token payload: the user's id, the
freshly computed version, the issuer fallback, audience "refresh", and
`iat = Math.floor(Date.now() / 1000)`. -/
def refreshPayload (uid version now : Nat) : Payload :=
  { id := uid, role := none, version := some version,
    iss := "meme-coins-filter-dev-app", aud := "refresh",
    iat := now / 1000 }

/-- token.service.js:20-51 (generateAccessToken).  Validations: a falsy
`user._id` (0) or `user.role` ("") throws, as does an unconfigured
`config.jwtSecretKey`; each throw is caught and wrapped in a
`TokenGenerationError`.  `expiresIn: "15m"` makes `exp = iat + 900`. -/
def generateAccessToken (cfg : Config) (sf : SignOracle) (now : Nat)
    (user : UserDoc) : Except AppError TokenStr :=
  if user._id = 0 ∨ user.role = "" then
    Except.error (TokenGenerationError
      "Failed to generate access token: Invalid user object - missing required properties")
  else if cfg.jwtSecretKey = "" then
    Except.error (TokenGenerationError
      "Failed to generate access token: JWT secret key not configured")
  else
    match jwtSign sf (accessPayload user now) cfg.jwtSecretKey (now / 1000 + 900) with
    | Except.error msg =>
        Except.error (TokenGenerationError
          ("Failed to generate access token: " ++ msg))
    | Except.ok tok => Except.ok tok

/-- token.service.js:61-105 (generateRefreshToken).  After the validations
(falsy `_id`/`role`, unconfigured refresh key, refresh key equal to the
access key), the function re-fetches the user by id — its only caller,
loginUser, passes a plain `.lean()` object, so `user instanceof User` is
false and lines 75-80 always run.  It then computes
`(user.tokenVersion || 0) + 1` in application code (for a Nat version this
is `tokenVersion + 1`), persists it with a separate `findByIdAndUpdate`,
and signs a token embedding the new version with `aud = "refresh"` and
`expiresIn: "7d"` (`exp = iat + 604800`).  Any throw after the store update
is wrapped in a `TokenGenerationError`; the store update is not rolled
back.  Returns the thrown-or-returned value together with the store. -/
def generateRefreshToken (cfg : Config) (sf : SignOracle) (now : Nat)
    (userArg : UserDoc) (st : Store) : Except AppError TokenStr × Store :=
  if userArg._id = 0 ∨ userArg.role = "" then
    (Except.error (TokenGenerationError
      "Failed to generate refresh token: Invalid user object - missing required properties"), st)
  else if cfg.jwtRefreshKey = "" then
    (Except.error (TokenGenerationError
      "Failed to generate refresh token: JWT refresh key not configured"), st)
  else if cfg.jwtRefreshKey = cfg.jwtSecretKey then
    (Except.error (TokenGenerationError
      "Failed to generate refresh token: Refresh token key must differ from access token key"), st)
  else
    match findById st userArg._id with
    | none =>
        (Except.error (TokenGenerationError
          "Failed to generate refresh token: User not found"), st)
    | some user =>
      match jwtSign sf (refreshPayload user._id (user.tokenVersion + 1) now)
          cfg.jwtRefreshKey (now / 1000 + 604800) with
      | Except.error msg =>
          (Except.error (TokenGenerationError
            ("Failed to generate refresh token: " ++ msg)),
           updateById st user._id (setTokenVersionUpdate (user.tokenVersion + 1)))
      | Except.ok tok =>
          (Except.ok tok,
           updateById st user._id (setTokenVersionUpdate (user.tokenVersion + 1)))

/-- JS `!refreshToken` on the presented cookie value: `undefined`, `null`
and the empty string are falsy. -/
def presentedFalsy : Option TokenStr → Bool
  | none => true
  | some (TokenStr.raw "") => true
  | some _ => false

/-- token.service.js:170-173 — the structural check
`typeof refreshToken !== "string" || !refreshToken.split(".").length == 3`.
For a string input the first disjunct is false.  The second parses as
`(!len) == 3`: `!` coerces the segment count to a boolean (`0 ↦ true`,
otherwise `false`), and `==` then coerces that boolean back to a number
(`true ↦ 1`, `false ↦ 0`) before comparing with 3. -/
def invalidFormatCondition (t : TokenStr) : Bool :=
  (if segmentCount t = 0 then 1 else 0) = 3

/-- Outcome of refreshAccessToken: the returned-or-thrown value, the
security events emitted via `logSecurityEvent` (event types, in order), and
the user store (the function performs no store writes). -/
structure RefreshResult where
  result : Except AppError TokenStr
  log : List String := []
  store : Store
  deriving DecidableEq

/-- token.service.js:159-249 (refreshAccessToken).  Control flow follows
the source: missing/empty input throws MISSING_TOKEN; the broken structural
check (see `invalidFormatCondition`) would throw INVALID_FORMAT; jwt.verify
failures are classified in the catch block (TokenExpiredError vs
JsonWebTokenError); an unknown subject id throws USER_NOT_FOUND; a stored
token differing from the presented one throws TOKEN_MISMATCH (logged); a
version difference throws VERSION_MISMATCH (logged; `decoded.version` may
be `undefined`, which `!==` a number).  On reaching line 214 the code calls
`generateAccessToken(user)` **without await**, logs `token_refreshed`
unconditionally, and returns the promise: a signing rejection therefore
surfaces at the return, outside the try/catch, as the unwrapped
`TokenGenerationError`. -/
def refreshAccessToken (cfg : Config) (sf : SignOracle) (now : Nat)
    (presented : Option TokenStr) (st : Store) : RefreshResult :=
  if presentedFalsy presented then
    { result := Except.error
        (TokenVerificationError "No refresh token provided" "MISSING_TOKEN"),
      log := [], store := st }
  else
    match presented with
    | none =>
        { result := Except.error
            (TokenVerificationError "No refresh token provided" "MISSING_TOKEN"),
          log := [], store := st }
    | some t =>
      if invalidFormatCondition t then
        { result := Except.error
            (TokenVerificationError "Invalid token format" "INVALID_FORMAT"),
          log := [], store := st }
      else
        match jwtVerify t cfg.jwtRefreshKey now with
        | Except.error JwtError.tokenExpired =>
            { result := Except.error
                (TokenExpiredError "Refresh token expired" "TOKEN_EXPIRED"),
              log := ["refresh_token_expired"], store := st }
        | Except.error JwtError.jsonWebToken =>
            { result := Except.error
                (TokenVerificationError "Invalid refresh token" "INVALID_TOKEN"),
              log := ["invalid_refresh_token"], store := st }
        | Except.ok decoded =>
          match findById st decoded.id with
          | none =>
              { result := Except.error
                  (TokenVerificationError "User not found" "USER_NOT_FOUND"),
                log := [], store := st }
          | some user =>
            if user.refreshToken ≠ some t then
              { result := Except.error
                  (TokenVerificationError "Token does not match stored token"
                    "TOKEN_MISMATCH"),
                log := ["refresh_token_mismatch"], store := st }
            else if decoded.version ≠ some user.tokenVersion then
              { result := Except.error
                  (TokenVerificationError "Token version invalid"
                    "VERSION_MISMATCH"),
                log := ["refresh_token_version_mismatch"], store := st }
            else
              match generateAccessToken cfg sf now user with
              | Except.error e =>
                  { result := Except.error e, log := ["token_refreshed"],
                    store := st }
              | Except.ok newTok =>
                  { result := Except.ok newTok, log := ["token_refreshed"],
                    store := st }

/-! ## auth.service.js (loginUser, logoutUser) -/

/-- Outcome of loginUser: the returned access token or thrown error, the
refresh token attached to the response cookie by `setRefreshTokenCookie`
(when reached), and the user store. -/
structure LoginResult where
  result : Except AppError TokenStr
  cookie : Option TokenStr := none
  store : Store
  deriving DecidableEq

/-- auth.service.js (loginUser).  Control flow follows the source:
missing credentials and unknown email throw AuthenticationError; the lock
guard is `user.isLocked && user.lockUntil > Date.now()` on the raw
document; a failed bcrypt comparison computes
`loginAttempts = user.loginAttempts + 1` (NaN when the raw document lacks
the field), `isLocked = loginAttempts >= 5`,
`lockUntil = isLocked ? Date.now() + 30 * 60 * 1000 : null`, issues the
strict-filtered update, and throws AuthenticationError.  On a successful
comparison it issues the strict-filtered reset update, calls
`generateAccessToken(user)` **without await** (a rejection is only
observed at the final `return accessToken`, outside the try/catch, so it
surfaces unwrapped), awaits `generateRefreshToken(user)` (a throw lands in
the catch block, which re-throws non-Authentication/AccountLocked errors
as a generic AuthenticationError), persists the refresh token, and sets
the cookie. -/
def loginUser (cfg : Config) (sf : SignOracle) (now : Nat)
    (email password : String) (st : Store) : LoginResult :=
  if email = "" ∨ password = "" then
    { result := Except.error
        (AuthenticationError "Email and password are required"), store := st }
  else
    match findOneByEmail st email with
    | none =>
        { result := Except.error (AuthenticationError "Invalid credentials"),
          store := st }
    | some user =>
      if jsTruthy user.isLocked ∧ jsGtNow user.lockUntil now then
        { result := Except.error (AccountLockedError
            "Account temporarily locked due to multiple failed attempts"),
          store := st }
      else if ¬ bcryptCompare password user.password then
        { result := Except.error (AuthenticationError "Invalid credentials"),
          store := updateById st user._id
            (failedLoginUpdate (jsGe (jsAddOne user.loginAttempts) 5)
              (if jsGe (jsAddOne user.loginAttempts) 5
               then some (now + 30 * 60 * 1000) else none)) }
      else
        match generateRefreshToken cfg sf now user
            (updateById st user._id (successLoginUpdate now)) with
        | (Except.error _, st2) =>
            { result := Except.error (AuthenticationError
                "An unexpected error occurred during login"),
              store := st2 }
        | (Except.ok refreshToken, st2) =>
            { result := generateAccessToken cfg sf now user,
              cookie := some refreshToken,
              store := updateById st2 user._id (setRefreshTokenUpdate refreshToken) }

/-- auth.service.js (logoutUser).  When an authenticated user is present,
clears the stored refresh token (`$set: { refreshToken: null }`, a schema
path, persisted); the response-level cookie clearing is outside the store
model. -/
def logoutUser (userArg : Option UserDoc) (st : Store) : Store :=
  match userArg with
  | some user => updateById st user._id clearRefreshTokenUpdate
  | none => st

/-! ## auth.middleware.js -/

/-- auth.middleware.js:4-29 — verifies the bearer token with
`process.env.JWT_SECRET` (= config.jwtSecretKey) and loads the user;
any verify failure answers 401 "Unauthorized, invalid token". -/
def authMiddleware (cfg : Config) (now : Nat) (token : Option TokenStr)
    (st : Store) : Except (Nat × String) UserDoc :=
  match token with
  | none => Except.error (401, "Unauthorized, no token provided")
  | some t =>
    match jwtVerify t cfg.jwtSecretKey now with
    | Except.error _ => Except.error (401, "Unauthorized, invalid token")
    | Except.ok decoded =>
      match findById st decoded.id with
      | none => Except.error (401, "User not found")
      | some user => Except.ok user

/-! ## Interleaving model of the token_version increment
(token.service.js:76-83)

`generateRefreshToken` touches the store twice: a read (`User.findById`,
line 76) and a write (`User.findByIdAndUpdate(user._id, { tokenVersion:
user.tokenVersion })`, line 83) of the application-computed value
`(user.tokenVersion || 0) + 1` (line 82).  Each store operation is atomic
on its own, but the pair is not: two concurrent issuances for the same
user may interleave between the read and the write.  The model below runs
two in-flight issuances over the shared `tokenVersion` cell under an
explicit schedule. -/

/-- Program counter of one in-flight issuance, restricted to its two store
accesses. -/
inductive IssuePC where
  | atRead
  | atWrite (newVersion : Nat)
  | done (issuedVersion : Nat)
  deriving DecidableEq

/-- One atomic store access of an issuance: the read returns the current
version and the thread computes `version + 1` in application code (line
82); the write overwrites the stored version with that computed value
(line 83) and the thread goes on to embed it in the signed token (line
91). -/
def issueStep (version : Nat) (pc : IssuePC) : Nat × IssuePC :=
  match pc with
  | IssuePC.atRead => (version, IssuePC.atWrite (version + 1))
  | IssuePC.atWrite v => (v, IssuePC.done v)
  | IssuePC.done v => (version, IssuePC.done v)

/-- Runs two in-flight issuances A and B over the shared version cell
under a schedule (`true` steps A, `false` steps B); returns the final
stored version and both final thread states. -/
def runSched (version : Nat) (a b : IssuePC) : List Bool → Nat × IssuePC × IssuePC
  | [] => (version, a, b)
  | true :: rest =>
      let s := issueStep version a
      runSched s.1 s.2 b rest
  | false :: rest =>
      let s := issueStep version b
      runSched s.1 a s.2 rest

/-! ## Derived store observations -/

/-- The `tokenVersion` of the user a given id resolves to. -/
def storeVersion (st : Store) (i : Nat) : Option Nat :=
  (findById st i).map UserDoc.tokenVersion

/-- No user's `tokenVersion` decreases between two store states. -/
def versionsNondecreasing (st st' : Store) : Prop :=
  ∀ i v, storeVersion st i = some v →
    ∃ v', storeVersion st' i = some v' ∧ v ≤ v'

/-- Whether an operation returned a value (rather than throwing). -/
def resultOk : Except AppError TokenStr → Bool
  | Except.ok _ => true
  | Except.error _ => false

/-! ## Concrete fixtures (used by witnesses and counterexamples) -/

/-- A configuration with two distinct configured secrets. -/
def cfg0 : Config := { jwtSecretKey := "A", jwtRefreshKey := "R" }

/-- A misconfiguration where both secrets are the same key. -/
def cfgEq : Config := { jwtSecretKey := "K", jwtRefreshKey := "K" }

/-- A signing oracle under which every jwt.sign call succeeds. -/
def sf0 : SignOracle := fun _ _ => none

/-- A signing oracle under which every jwt.sign call throws "boom". -/
def sfBoom : SignOracle := fun _ _ => some "boom"

/-- A freshly registered user: correct password "p", no refresh token,
version 0, and no lockout paths on the raw document (registration creates
none of them, and strict mode keeps them from ever being written). -/
def u0 : UserDoc := { _id := 1, email := "e", password := bcryptHash "p", role := "USER" }

/-- The store holding just `u0`. -/
def st0 : Store := [u0]

/-- A fixed request clock (milliseconds). -/
def now0 : Nat := 1000000

/-- A raw user document whose lock window has expired: `isLocked` still
set, `lockUntil` (500 ms) in the past of `now0`, five failed attempts
recorded. -/
def uLocked : UserDoc :=
  { u0 with isLocked := some true, lockUntil := some 500, loginAttempts := some 5 }

/-- The access token issued to `u0` at `now0` under `cfg0`. -/
def atok0 : TokenStr :=
  TokenStr.signed (accessPayload u0 now0) "A" (now0 / 1000 + 900)

/-- The first refresh token issued to `u0` at `now0` under `cfg0`
(embedded version 1). -/
def rtok1 : TokenStr :=
  TokenStr.signed (refreshPayload 1 1 now0) "R" (now0 / 1000 + 604800)

/-- `u0` after its first refresh-token issuance was persisted. -/
def uV1 : UserDoc := { u0 with tokenVersion := 1, refreshToken := some rtok1 }

/-- The store after `u0`'s first login. -/
def stV1 : Store := [uV1]

/-- One failed login attempt (wrong password "w") against `cfg0`. -/
def failOnce (st : Store) : Store :=
  (loginUser cfg0 sf0 now0 "e" "w" st).store

/-- The store after five consecutive failed login attempts for `u0`. -/
def stAfterFiveFailures : Store :=
  failOnce (failOnce (failOnce (failOnce (failOnce st0))))

/-! ## Helper lemmas -/

/-- The failed-login update is stripped entirely: none of `isLocked`,
`lockUntil`, `loginAttempts` is declared in `userSchema`. -/
theorem failedLoginUpdate_strips (l : Bool) (lu : Option Nat) (u : UserDoc) :
    failedLoginUpdate l lu u = u := rfl

/-- The successful-login reset update is stripped entirely: none of
`loginAttempts`, `isLocked`, `lockUntil`, `lastLogin` is declared in
`userSchema`. -/
theorem successLoginUpdate_strips (now : Nat) (u : UserDoc) :
    successLoginUpdate now u = u := rfl

/-- `tokenVersion` is a schema path, so its update is applied. -/
theorem setTokenVersionUpdate_applies (v : Nat) (u : UserDoc) :
    setTokenVersionUpdate v u = { u with tokenVersion := v } := rfl

/-- `refreshToken` is a schema path, so its update is applied. -/
theorem setRefreshTokenUpdate_applies (t : TokenStr) (u : UserDoc) :
    setRefreshTokenUpdate t u = { u with refreshToken := some t } := rfl

/-- `refreshToken` is a schema path, so the logout update is applied. -/
theorem clearRefreshTokenUpdate_applies (u : UserDoc) :
    clearRefreshTokenUpdate u = { u with refreshToken := none } := rfl

/-- A found user carries the id it was looked up by. -/
theorem findById_some_id {st : Store} {i : Nat} {u : UserDoc}
    (h : findById st i = some u) : u._id = i := by
  simpa using List.find?_some h

/-- An identity update leaves the store unchanged. -/
theorem updateById_id_fun (st : Store) (tid : Nat) (f : UserDoc → UserDoc)
    (hf : ∀ u, f u = u) : updateById st tid f = st := by
  simp [updateById, hf]

/-- Looking up after an id-preserving update: the result is the original
lookup with the update applied when the id matches the target. -/
theorem findById_updateById (st : Store) (tid : Nat) (f : UserDoc → UserDoc)
    (hf : ∀ u, (f u)._id = u._id) (i : Nat) :
    findById (updateById st tid f) i =
      (findById st i).map (fun u => if u._id = tid then f u else u) := by
  induction st with
  | nil => rfl
  | cons a rest ih =>
    have hid : (if a._id = tid then f a else a)._id = a._id := by
      split
      · exact hf a
      · rfl
    by_cases h : a._id = i
    · simp only [findById, updateById, List.map_cons] at *
      rw [List.find?_cons_of_pos _ (by simpa [hid] using h),
          List.find?_cons_of_pos _ (by simpa using h)]
      simp
    · simp only [findById, updateById, List.map_cons] at *
      rw [List.find?_cons_of_neg _ (by simpa [hid] using h),
          List.find?_cons_of_neg _ (by simpa using h)]
      exact ih

theorem versionsNondecreasing_refl (st : Store) : versionsNondecreasing st st :=
  fun _ v h => ⟨v, h, Nat.le_refl v⟩

theorem versionsNondecreasing_trans {a b c : Store}
    (h1 : versionsNondecreasing a b) (h2 : versionsNondecreasing b c) :
    versionsNondecreasing a c := by
  intro i v hv
  obtain ⟨v1, hb, le1⟩ := h1 i v hv
  obtain ⟨v2, hc, le2⟩ := h2 i v1 hb
  exact ⟨v2, hc, Nat.le_trans le1 le2⟩

/-- An update that preserves ids and never lowers a version keeps the
store's versions nondecreasing. -/
theorem versionsNondecreasing_updateById (st : Store) (tid : Nat)
    (f : UserDoc → UserDoc) (hf : ∀ u, (f u)._id = u._id)
    (hv : ∀ u, u.tokenVersion ≤ (f u).tokenVersion) :
    versionsNondecreasing st (updateById st tid f) := by
  intro i v hvv
  unfold storeVersion at hvv ⊢
  rw [findById_updateById st tid f hf i]
  cases hfind : findById st i with
  | none => rw [hfind] at hvv; cases hvv
  | some u =>
    rw [hfind] at hvv
    simp only [Option.map_some'] at hvv ⊢
    refine ⟨(if u._id = tid then f u else u).tokenVersion, rfl, ?_⟩
    have hv2 : u.tokenVersion = v := Option.some_inj.mp hvv
    rw [← hv2]
    split
    · exact hv u
    · exact Nat.le_refl _

/-- The version write of generateRefreshToken never lowers a version when
the written value is one more than the version of the user the write
targets. -/
theorem versionsNondecreasing_setVersion (st : Store) (user : UserDoc)
    (hfind : findById st user._id = some user) :
    versionsNondecreasing st
      (updateById st user._id (setTokenVersionUpdate (user.tokenVersion + 1))) := by
  intro i v hvv
  unfold storeVersion at hvv ⊢
  rw [findById_updateById st user._id (setTokenVersionUpdate (user.tokenVersion + 1)) (fun _ => rfl) i]
  cases hfind' : findById st i with
  | none => rw [hfind'] at hvv; cases hvv
  | some u' =>
    rw [hfind'] at hvv
    simp only [Option.map_some'] at hvv ⊢
    refine ⟨(if u'._id = user._id then setTokenVersionUpdate (user.tokenVersion + 1) u' else u').tokenVersion, rfl, ?_⟩
    have hv2 : u'.tokenVersion = v := Option.some_inj.mp hvv
    by_cases h : u'._id = user._id
    · have hi : i = user._id := by rw [← findById_some_id hfind', h]
      have heq : u' = user := by
        rw [hi] at hfind'
        rw [hfind'] at hfind
        exact Option.some_inj.mp hfind
      rw [if_pos h, setTokenVersionUpdate_applies]
      calc v = u'.tokenVersion := hv2.symm
        _ = user.tokenVersion := by rw [heq]
        _ ≤ user.tokenVersion + 1 := Nat.le_succ _
    · rw [if_neg h]
      exact Nat.le_of_eq hv2.symm

/-- Reduction of generateRefreshToken past its validations: the re-fetch
found `user`, the version write targets `user._id` with value
`user.tokenVersion + 1`, and the signed payload embeds that value. -/
theorem generateRefreshToken_run (cfg : Config) (sf : SignOracle) (now : Nat)
    (userArg : UserDoc) (st : Store) (user : UserDoc)
    (hval : ¬(userArg._id = 0 ∨ userArg.role = ""))
    (hkey : ¬cfg.jwtRefreshKey = "")
    (hne : ¬cfg.jwtRefreshKey = cfg.jwtSecretKey)
    (hfind : findById st userArg._id = some user) :
    generateRefreshToken cfg sf now userArg st =
      match jwtSign sf (refreshPayload user._id (user.tokenVersion + 1) now)
          cfg.jwtRefreshKey (now / 1000 + 604800) with
      | Except.error msg =>
          (Except.error (TokenGenerationError
            ("Failed to generate refresh token: " ++ msg)),
           updateById st user._id (setTokenVersionUpdate (user.tokenVersion + 1)))
      | Except.ok tok =>
          (Except.ok tok,
           updateById st user._id (setTokenVersionUpdate (user.tokenVersion + 1))) := by
  unfold generateRefreshToken
  rw [if_neg hval, if_neg hkey, if_neg hne, hfind]

/-- Inversion of a successful refresh-token issuance: the store write and
the embedded version are pinned down. -/
theorem generateRefreshToken_ok_inv {cfg : Config} {sf : SignOracle} {now : Nat}
    {userArg : UserDoc} {st : Store} {tok : TokenStr} {st' : Store}
    (h : generateRefreshToken cfg sf now userArg st = (Except.ok tok, st')) :
    ∃ user, findById st userArg._id = some user ∧ user._id = userArg._id ∧
      tok = TokenStr.signed (refreshPayload user._id (user.tokenVersion + 1) now)
        cfg.jwtRefreshKey (now / 1000 + 604800) ∧
      st' = updateById st user._id (setTokenVersionUpdate (user.tokenVersion + 1)) := by
  by_cases hval : userArg._id = 0 ∨ userArg.role = ""
  · unfold generateRefreshToken at h
    rw [if_pos hval] at h
    simp at h
  by_cases hkey : cfg.jwtRefreshKey = ""
  · unfold generateRefreshToken at h
    rw [if_neg hval, if_pos hkey] at h
    simp at h
  by_cases hne : cfg.jwtRefreshKey = cfg.jwtSecretKey
  · unfold generateRefreshToken at h
    rw [if_neg hval, if_neg hkey, if_pos hne] at h
    simp at h
  cases hfind : findById st userArg._id with
  | none =>
    unfold generateRefreshToken at h
    rw [if_neg hval, if_neg hkey, if_neg hne, hfind] at h
    simp at h
  | some user =>
    rw [generateRefreshToken_run cfg sf now userArg st user hval hkey hne hfind] at h
    unfold jwtSign at h
    cases hsig : sf (refreshPayload user._id (user.tokenVersion + 1) now) cfg.jwtRefreshKey with
    | some msg =>
      rw [hsig] at h
      simp at h
    | none =>
      rw [hsig] at h
      simp only [Prod.mk.injEq, Except.ok.injEq] at h
      exact ⟨user, rfl, findById_some_id hfind, h.1.symm, h.2.symm⟩

/-- refreshAccessToken performs no store writes: every branch returns the
input store. -/
theorem refreshAccessToken_store (cfg : Config) (sf : SignOracle) (now : Nat)
    (presented : Option TokenStr) (st : Store) :
    (refreshAccessToken cfg sf now presented st).store = st := by
  unfold refreshAccessToken
  repeat first
  | rfl
  | split

/-- The store after generateRefreshToken (success or failure) never
lowers any user's version. -/
theorem generateRefreshToken_mono (cfg : Config) (sf : SignOracle) (now : Nat)
    (userArg : UserDoc) (st : Store) :
    versionsNondecreasing st (generateRefreshToken cfg sf now userArg st).2 := by
  unfold generateRefreshToken
  split
  · exact versionsNondecreasing_refl st
  · split
    · exact versionsNondecreasing_refl st
    · split
      · exact versionsNondecreasing_refl st
      · split
        · exact versionsNondecreasing_refl st
        · rename_i user heq
          have hid : user._id = userArg._id := findById_some_id heq
          have hfind' : findById st user._id = some user := by rw [hid]; exact heq
          unfold jwtSign
          split
          · exact versionsNondecreasing_setVersion st user hfind'
          · exact versionsNondecreasing_setVersion st user hfind'

/-- The store after loginUser never lowers any user's version. -/
theorem loginUser_mono (cfg : Config) (sf : SignOracle) (now : Nat)
    (email password : String) (st : Store) :
    versionsNondecreasing st (loginUser cfg sf now email password st).store := by
  unfold loginUser
  split
  · exact versionsNondecreasing_refl st
  · split
    · exact versionsNondecreasing_refl st
    · rename_i user heq
      split
      · exact versionsNondecreasing_refl st
      · split
        · rw [updateById_id_fun st user._id _ (failedLoginUpdate_strips _ _)]
          exact versionsNondecreasing_refl st
        · rw [updateById_id_fun st user._id _ (successLoginUpdate_strips now)]
          have h2 := generateRefreshToken_mono cfg sf now user st
          split
          · rename_i st2 hgen
            have : st2 = (generateRefreshToken cfg sf now user st).2 := by rw [hgen]
            rw [this] at *
            exact h2
          · rename_i refreshToken st2 hgen
            have hst2 : st2 = (generateRefreshToken cfg sf now user st).2 := by rw [hgen]
            subst hst2
            refine versionsNondecreasing_trans h2 ?_
            exact versionsNondecreasing_updateById _ user._id _
              (fun u => rfl) (fun u => Nat.le_refl _)

/-- The store after logoutUser never lowers any user's version. -/
theorem logoutUser_mono (userArg : Option UserDoc) (st : Store) :
    versionsNondecreasing st (logoutUser userArg st) := by
  unfold logoutUser
  split
  · exact versionsNondecreasing_updateById _ _ _ (fun u => rfl) (fun u => Nat.le_refl _)
  · exact versionsNondecreasing_refl st

/-! ## Claim theorems -/

/-- Claim C1: the claim states that the `token_version` increment on
refresh-token issuance is a single atomic read-modify-write operation in
the backing store, so that under two concurrent issuances both increments
take effect and a version mismatch after a concurrent re-issuance is
always detectable.  The code instead reads the user (token.service.js:76),
computes `(user.tokenVersion || 0) + 1` in application code (line 82) and
writes it back with a separate `findByIdAndUpdate` (line 83).  Under the
read-read-write-write interleaving of two concurrent issuances (schedule
A,B,A,B from version 0) both runs write and embed version 1: one increment
is lost and both issued tokens embed the then-current stored version, so
the concurrent re-issuance is not detectable as a version mismatch.  The
sequential schedule A,A,B,B gives the behavior the claim expects (final
version 2, embedded versions 1 and 2). -/
theorem tokenVersion_increment_not_atomic :
    runSched 0 IssuePC.atRead IssuePC.atRead [true, false, true, false] =
      (1, IssuePC.done 1, IssuePC.done 1) ∧
    runSched 0 IssuePC.atRead IssuePC.atRead [true, true, false, false] =
      (2, IssuePC.done 1, IssuePC.done 2) := by
  constructor <;> rfl

/-- Claim C2: the claim states that after 5 consecutive failed password
checks the failure counter reaches the threshold and the account is locked
for 30 minutes, so a 6th attempt with the correct password fails with an
account-locked error.  On the code the lockout never engages: the paths
`loginAttempts`, `isLocked`, `lockUntil` are not declared in `userSchema`,
so mongoose strict mode strips the failed-login update entirely (and on
the raw document `user.loginAttempts` is undefined, making
`user.loginAttempts + 1` NaN and `NaN >= 5` false).  Five consecutive
failed logins leave the store equal to the initial store, and the 6th
attempt with the correct password succeeds, returning the access token and
issuing a refresh token instead of throwing AccountLockedError. -/
theorem lockout_sixth_attempt_succeeds :
    stAfterFiveFailures = st0 ∧
    loginUser cfg0 sf0 now0 "e" "p" stAfterFiveFailures =
      { result := Except.ok atok0, cookie := some rtok1, store := stV1 } := by
  constructor <;> rfl

/-- Claim C3: a presented refresh token whose signature verifies under the
refresh secret and which is unexpired, but which is not exactly equal to
the refresh token stored on the user record (in particular after a later
login rotated it, or after logout cleared it), is rejected with the
token-mismatch error and the `refresh_token_mismatch` security event is
logged (token.service.js:195-201). -/
theorem refresh_mismatch_rejected (cfg : Config) (sf : SignOracle) (now : Nat)
    (t : TokenStr) (p : Payload) (st : Store) (user : UserDoc)
    (hverify : jwtVerify t cfg.jwtRefreshKey now = Except.ok p)
    (hfind : findById st p.id = some user)
    (hmm : user.refreshToken ≠ some t) :
    refreshAccessToken cfg sf now (some t) st =
      { result := Except.error (TokenVerificationError
          "Token does not match stored token" "TOKEN_MISMATCH"),
        log := ["refresh_token_mismatch"], store := st } := by
  cases t with
  | raw s => simp [jwtVerify] at hverify
  | signed q k e =>
    unfold refreshAccessToken
    rw [show presentedFalsy (some (TokenStr.signed q k e)) = false from rfl]
    simp only [Bool.false_eq_true, if_false]
    rw [show invalidFormatCondition (TokenStr.signed q k e) = false from rfl]
    simp only [Bool.false_eq_true, if_false]
    rw [hverify]
    simp only [hfind]
    rw [if_pos hmm]

/-- Witness for C3: the logout scenario — after `logoutUser` cleared the
stored refresh token, presenting the still-valid first refresh token is
rejected with the mismatch error and logged. -/
theorem refresh_mismatch_rejected_witness :
    refreshAccessToken cfg0 sf0 now0 (some rtok1)
        (logoutUser (findById stV1 1) stV1) =
      { result := Except.error (TokenVerificationError
          "Token does not match stored token" "TOKEN_MISMATCH"),
        log := ["refresh_token_mismatch"],
        store := logoutUser (findById stV1 1) stV1 } :=
  refresh_mismatch_rejected cfg0 sf0 now0 rtok1 (refreshPayload 1 1 now0)
    (logoutUser (findById stV1 1) stV1) { uV1 with refreshToken := none }
    (by decide) (by decide) (by decide)

/-- Claim C4: (i) a successful refresh-token issuance embeds exactly
`tokenVersion + 1` of the user it re-fetched and persists that version;
(ii) two sequential successful issuances for the same user embed versions
differing by exactly 1; (iii) loginUser never decreases any stored
`tokenVersion`; (iv) refreshAccessToken leaves the store untouched;
(v) logoutUser never decreases any stored `tokenVersion`. -/
theorem refresh_issuance_version_invariants :
    (∀ (cfg : Config) (sf : SignOracle) (now : Nat) (userArg : UserDoc)
       (st : Store) (user : UserDoc) (tok : TokenStr) (st' : Store),
       findById st userArg._id = some user →
       generateRefreshToken cfg sf now userArg st = (Except.ok tok, st') →
       tok = TokenStr.signed (refreshPayload user._id (user.tokenVersion + 1) now)
         cfg.jwtRefreshKey (now / 1000 + 604800) ∧
       storeVersion st' userArg._id = some (user.tokenVersion + 1)) ∧
    (∀ (cfg : Config) (sf : SignOracle) (now now2 : Nat) (userArg : UserDoc)
       (st st1 st2 : Store) (tok1 tok2 : TokenStr)
       (p1 p2 : Payload) (e1 e2 : Nat),
       generateRefreshToken cfg sf now userArg st = (Except.ok tok1, st1) →
       generateRefreshToken cfg sf now2 userArg st1 = (Except.ok tok2, st2) →
       tok1 = TokenStr.signed p1 cfg.jwtRefreshKey e1 →
       tok2 = TokenStr.signed p2 cfg.jwtRefreshKey e2 →
       ∃ v, p1.version = some v ∧ p2.version = some (v + 1)) ∧
    (∀ (cfg : Config) (sf : SignOracle) (now : Nat) (email password : String)
       (st : Store),
       versionsNondecreasing st (loginUser cfg sf now email password st).store) ∧
    (∀ (cfg : Config) (sf : SignOracle) (now : Nat)
       (presented : Option TokenStr) (st : Store),
       (refreshAccessToken cfg sf now presented st).store = st) ∧
    (∀ (userArg : Option UserDoc) (st : Store),
       versionsNondecreasing st (logoutUser userArg st)) := by
  refine ⟨?_, ?_, loginUser_mono, refreshAccessToken_store, logoutUser_mono⟩
  · intro cfg sf now userArg st user tok st' hfind hrun
    obtain ⟨user2, hfind2, hid2, htok, hst'⟩ := generateRefreshToken_ok_inv hrun
    have huser : user2 = user := by
      rw [hfind] at hfind2
      exact Option.some_inj.mp hfind2.symm
    subst huser
    refine ⟨htok, ?_⟩
    subst hst'
    unfold storeVersion
    rw [findById_updateById st user2._id
          (setTokenVersionUpdate (user2.tokenVersion + 1)) (fun _ => rfl) userArg._id,
        hfind, Option.map_some', Option.map_some']
    rw [if_pos rfl]
    rfl
  · intro cfg sf now now2 userArg st st1 st2 tok1 tok2 p1 p2 e1 e2 h1 h2 ht1 ht2
    obtain ⟨u1, hf1, hid1, htok1, hst1⟩ := generateRefreshToken_ok_inv h1
    obtain ⟨u2, hf2, hid2, htok2, hst2⟩ := generateRefreshToken_ok_inv h2
    have hp1 : p1 = refreshPayload u1._id (u1.tokenVersion + 1) now := by
      rw [ht1] at htok1
      exact ((TokenStr.signed.injEq _ _ _ _ _ _).mp htok1).1
    have hv2 : u2.tokenVersion = u1.tokenVersion + 1 := by
      subst hst1
      rw [findById_updateById st u1._id
            (setTokenVersionUpdate (u1.tokenVersion + 1)) (fun _ => rfl) userArg._id,
          hf1, Option.map_some'] at hf2
      rw [if_pos rfl] at hf2
      have := Option.some_inj.mp hf2
      rw [← this]
      rfl
    have hp2 : p2 = refreshPayload u2._id (u2.tokenVersion + 1) now2 := by
      rw [ht2] at htok2
      exact ((TokenStr.signed.injEq _ _ _ _ _ _).mp htok2).1
    refine ⟨u1.tokenVersion + 1, ?_, ?_⟩
    · rw [hp1]; rfl
    · rw [hp2, ← hv2]; rfl

/-- Witness for C4: the first issuance for `u0` embeds version 1 and
persists version 1. -/
theorem refresh_issuance_version_invariants_witness :
    rtok1 = TokenStr.signed (refreshPayload u0._id (u0.tokenVersion + 1) now0)
      cfg0.jwtRefreshKey (now0 / 1000 + 604800) ∧
    storeVersion [{ u0 with tokenVersion := 1 }] u0._id = some (u0.tokenVersion + 1) :=
  refresh_issuance_version_invariants.1 cfg0 sf0 now0 u0 st0 u0 rtok1
    [{ u0 with tokenVersion := 1 }] (by decide) (by decide)

/-- A token signed under one key never verifies under a different key. -/
theorem jwtVerify_key_mismatch (p : Payload) (k key : String) (e now : Nat)
    (h : k ≠ key) :
    jwtVerify (TokenStr.signed p k e) key now = Except.error JwtError.jsonWebToken := by
  simp only [jwtVerify]
  rw [if_pos h]

/-- A token verifies under its own key when unexpired. -/
theorem jwtVerify_ok (p : Payload) (key : String) (e now : Nat)
    (h : now / 1000 < e) :
    jwtVerify (TokenStr.signed p key e) key now = Except.ok p := by
  simp only [jwtVerify]
  rw [if_neg (fun hc => hc rfl), if_neg (Nat.not_le.mpr h)]

/-- Inversion of a successful access-token issuance: the token is signed
with the access secret over the access payload. -/
theorem generateAccessToken_ok_inv {cfg : Config} {sf : SignOracle} {now : Nat}
    {user : UserDoc} {tok : TokenStr}
    (h : generateAccessToken cfg sf now user = Except.ok tok) :
    tok = TokenStr.signed (accessPayload user now) cfg.jwtSecretKey (now / 1000 + 900) := by
  by_cases hval : user._id = 0 ∨ user.role = ""
  · unfold generateAccessToken at h
    rw [if_pos hval] at h
    simp at h
  by_cases hkey : cfg.jwtSecretKey = ""
  · unfold generateAccessToken at h
    rw [if_neg hval, if_pos hkey] at h
    simp at h
  unfold generateAccessToken at h
  rw [if_neg hval, if_neg hkey] at h
  unfold jwtSign at h
  cases hsig : sf (accessPayload user now) cfg.jwtSecretKey with
  | some msg =>
    rw [hsig] at h
    simp at h
  | none =>
    rw [hsig] at h
    simp only [Except.ok.injEq] at h
    exact h.symm

/-- Claim C5: (i) refresh-token issuance fails fast with the dedicated
error when the two configured secrets are equal (token.service.js:71-73);
(ii) in the symbolic signature model a token signed under one key never
verifies under a different key; (iii) an access token presented to the
refresh endpoint is rejected as an invalid refresh token when the secrets
differ; (iv) a refresh token presented as a bearer access token is
rejected by the authentication middleware when the secrets differ. -/
theorem distinct_keys_cross_rejection :
    (∀ (cfg : Config) (sf : SignOracle) (now : Nat) (userArg : UserDoc)
       (st : Store),
       cfg.jwtRefreshKey = cfg.jwtSecretKey →
       ¬(userArg._id = 0 ∨ userArg.role = "") →
       cfg.jwtRefreshKey ≠ "" →
       generateRefreshToken cfg sf now userArg st =
         (Except.error (TokenGenerationError
           "Failed to generate refresh token: Refresh token key must differ from access token key"),
          st)) ∧
    (∀ (p : Payload) (kA kB : String) (e now : Nat),
       kA ≠ kB →
       jwtVerify (TokenStr.signed p kA e) kB now =
         Except.error JwtError.jsonWebToken) ∧
    (∀ (cfg : Config) (sf : SignOracle) (now : Nat) (user : UserDoc)
       (tok : TokenStr) (st : Store),
       cfg.jwtSecretKey ≠ cfg.jwtRefreshKey →
       generateAccessToken cfg sf now user = Except.ok tok →
       refreshAccessToken cfg sf now (some tok) st =
         { result := Except.error (TokenVerificationError
             "Invalid refresh token" "INVALID_TOKEN"),
           log := ["invalid_refresh_token"], store := st }) ∧
    (∀ (cfg : Config) (sf : SignOracle) (now now2 : Nat) (userArg : UserDoc)
       (st st' st2 : Store) (tok : TokenStr),
       cfg.jwtSecretKey ≠ cfg.jwtRefreshKey →
       generateRefreshToken cfg sf now userArg st = (Except.ok tok, st') →
       authMiddleware cfg now2 (some tok) st2 =
         Except.error (401, "Unauthorized, invalid token")) := by
  refine ⟨?_, jwtVerify_key_mismatch, ?_, ?_⟩
  · intro cfg sf now userArg st heq hval hkey
    unfold generateRefreshToken
    rw [if_neg hval, if_neg hkey, if_pos heq]
  · intro cfg sf now user tok st hne hgen
    have htok := generateAccessToken_ok_inv hgen
    subst htok
    unfold refreshAccessToken
    rw [show presentedFalsy (some (TokenStr.signed (accessPayload user now)
          cfg.jwtSecretKey (now / 1000 + 900))) = false from rfl]
    simp only [Bool.false_eq_true, if_false]
    rw [show invalidFormatCondition (TokenStr.signed (accessPayload user now)
          cfg.jwtSecretKey (now / 1000 + 900)) = false from rfl]
    simp only [Bool.false_eq_true, if_false]
    rw [jwtVerify_key_mismatch (accessPayload user now) cfg.jwtSecretKey
        cfg.jwtRefreshKey (now / 1000 + 900) now hne]
  · intro cfg sf now now2 userArg st st' st2 tok hne hrun
    obtain ⟨user, hfind, hid, htok, hst'⟩ := generateRefreshToken_ok_inv hrun
    subst htok
    simp only [authMiddleware]
    rw [jwtVerify_key_mismatch (refreshPayload user._id (user.tokenVersion + 1) now)
        cfg.jwtRefreshKey cfg.jwtSecretKey (now / 1000 + 604800) now2
        (fun hc => hne hc.symm)]

/-- Witness for C5: with both secrets set to "K" the refresh issuance for
`u0` fails fast; with the distinct secrets of `cfg0` the access token
`atok0` is rejected by the refresh flow and the refresh token `rtok1` is
rejected by the authentication middleware. -/
theorem distinct_keys_cross_rejection_witness :
    generateRefreshToken cfgEq sf0 now0 u0 st0 =
      (Except.error (TokenGenerationError
        "Failed to generate refresh token: Refresh token key must differ from access token key"),
       st0) ∧
    refreshAccessToken cfg0 sf0 now0 (some atok0) st0 =
      { result := Except.error (TokenVerificationError
          "Invalid refresh token" "INVALID_TOKEN"),
        log := ["invalid_refresh_token"], store := st0 } ∧
    authMiddleware cfg0 now0 (some rtok1) st0 =
      Except.error (401, "Unauthorized, invalid token") :=
  ⟨distinct_keys_cross_rejection.1 cfgEq sf0 now0 u0 st0 rfl (by decide) (by decide),
   distinct_keys_cross_rejection.2.2.1 cfg0 sf0 now0 u0 atok0 st0 (by decide) (by decide),
   distinct_keys_cross_rejection.2.2.2 cfg0 sf0 now0 now0 u0 st0
     [{ u0 with tokenVersion := 1 }] st0 rtok1 (by decide) (by decide)⟩

/-- Claim C6: the claim states that a string which is not syntactically a
three-segment signed token is rejected immediately with an invalid-format
error before signature verification.  The structural check at
token.service.js:170-173 is `!refreshToken.split(".").length == 3`, which
parses as `(!length) == 3`: the negated length is a boolean that coerces
to 0 or 1, never 3, so the condition is false for every input and the
INVALID_FORMAT rejection is unreachable.  A one-segment string such as
"abc" therefore falls through to jwt.verify and surfaces as the generic
INVALID_TOKEN outcome instead.  (The other two outcomes the claim lists do
behave as stated: an absent value is rejected as MISSING_TOKEN before any
store access, and expiry yields the distinct TokenExpiredError.) -/
theorem format_check_never_fires :
    (∀ t, invalidFormatCondition t = false) ∧
    segmentCount (TokenStr.raw "abc") = 1 ∧
    refreshAccessToken cfg0 sf0 now0 (some (TokenStr.raw "abc")) st0 =
      { result := Except.error (TokenVerificationError
          "Invalid refresh token" "INVALID_TOKEN"),
        log := ["invalid_refresh_token"], store := st0 } := by
  refine ⟨fun t => ?_, by decide, by decide⟩
  by_cases h : segmentCount t = 0 <;> simp [invalidFormatCondition, h]

/-- Claim C7: the claim states that every TokenVerificationError surfaced
by the refresh flow carries the reason code of the specific failure
(missing, malformed, token-mismatch, version-mismatch).  The constructor
at errors/index.js:21-25 declares only `message` and hard-codes the code
VERIFICATION_FAILED, so the reason code passed as a second argument at
every throw site is discarded: a missing-token rejection and a
token-mismatch rejection carry the identical code and are not
distinguishable by reason code at the error boundary. -/
theorem verification_error_code_constant :
    (∀ m r, (TokenVerificationError m r).code = some "VERIFICATION_FAILED") ∧
    (refreshAccessToken cfg0 sf0 now0 none st0).result =
      Except.error { message := "No refresh token provided", statusCode := 401,
                     code := some "VERIFICATION_FAILED" } ∧
    (refreshAccessToken cfg0 sf0 now0 (some rtok1) st0).result =
      Except.error { message := "Token does not match stored token",
                     statusCode := 401,
                     code := some "VERIFICATION_FAILED" } :=
  ⟨fun _ _ => rfl, by decide, by decide⟩

/-- Claim C8: the claim states that a user whose lock_until is in the past
is treated as unlocked and a correct-password login then succeeds, resets
login_attempts to 0, clears is_locked and lock_until, and stamps
last_login.  The first half holds: the guard
`user.isLocked && user.lockUntil > Date.now()` is false once the window
has passed, and the login succeeds.  The reset half fails on the code: the
update `{ loginAttempts: 0, isLocked: false, lockUntil: null, lastLogin }`
targets only paths that `userSchema` does not declare, so mongoose strict
mode strips all of them — after the successful login the document still
carries loginAttempts 5, isLocked true and the stale lockUntil, and no
lastLogin was stamped; only `tokenVersion` and `refreshToken` changed. -/
theorem expired_lock_login_succeeds_but_reset_stripped :
    resultOk (loginUser cfg0 sf0 now0 "e" "p" [uLocked]).result = true ∧
    findById (loginUser cfg0 sf0 now0 "e" "p" [uLocked]).store 1 =
      some { uLocked with tokenVersion := 1, refreshToken := some rtok1 } := by
  constructor <;> rfl

/-- Claim C9: a refresh issues a new access token only and performs no
store write (token.service.js:159-249 contains a single read,
`User.findById`): the stored refresh token string and the stored
`tokenVersion` are exactly what they were, and presenting the same
refresh token to the refresh flow again from the resulting store
succeeds whenever the first call did. -/
theorem refresh_does_not_rotate (cfg : Config) (sf : SignOracle) (now : Nat)
    (presented : Option TokenStr) (st : Store) :
    (refreshAccessToken cfg sf now presented st).store = st ∧
    (∀ t, presented = some t →
      resultOk (refreshAccessToken cfg sf now presented st).result = true →
      resultOk (refreshAccessToken cfg sf now (some t)
        (refreshAccessToken cfg sf now presented st).store).result = true) := by
  refine ⟨refreshAccessToken_store cfg sf now presented st, ?_⟩
  intro t ht hOk
  rw [refreshAccessToken_store cfg sf now presented st, ← ht]
  exact hOk

/-- Witness for C9: a successful refresh for `u0`'s stored token leaves
the store unchanged and the same token still refreshes successfully. -/
theorem refresh_does_not_rotate_witness :
    (refreshAccessToken cfg0 sf0 now0 (some rtok1) stV1).store = stV1 ∧
    resultOk (refreshAccessToken cfg0 sf0 now0 (some rtok1)
      (refreshAccessToken cfg0 sf0 now0 (some rtok1) stV1).store).result = true :=
  ⟨(refresh_does_not_rotate cfg0 sf0 now0 (some rtok1) stV1).1,
   (refresh_does_not_rotate cfg0 sf0 now0 (some rtok1) stV1).2 rtok1 rfl (by decide)⟩

/-- Claim C10: when jwt.sign throws inside generateRefreshToken after the
version write (token.service.js:83) has been applied, the catch block
wraps the failure in a TokenGenerationError and nothing rolls the store
back: the user's `tokenVersion` remains incremented, and the refresh token
that was stored before the failed issuance is now rejected by the refresh
flow with a version mismatch even though no replacement token was ever
produced. -/
theorem sign_failure_keeps_version_increment (cfg : Config) (sf : SignOracle)
    (now : Nat) (userArg : UserDoc) (st : Store) (user : UserDoc) (msg : String)
    (hval : ¬(userArg._id = 0 ∨ userArg.role = ""))
    (hkey : ¬cfg.jwtRefreshKey = "")
    (hne : ¬cfg.jwtRefreshKey = cfg.jwtSecretKey)
    (hfind : findById st userArg._id = some user)
    (hsig : sf (refreshPayload user._id (user.tokenVersion + 1) now)
      cfg.jwtRefreshKey = some msg) :
    generateRefreshToken cfg sf now userArg st =
      (Except.error (TokenGenerationError
        ("Failed to generate refresh token: " ++ msg)),
       updateById st user._id (setTokenVersionUpdate (user.tokenVersion + 1))) ∧
    storeVersion
      (updateById st user._id (setTokenVersionUpdate (user.tokenVersion + 1)))
      userArg._id = some (user.tokenVersion + 1) ∧
    (∀ (p : Payload) (e : Nat) (sf2 : SignOracle),
      user.refreshToken = some (TokenStr.signed p cfg.jwtRefreshKey e) →
      p.id = userArg._id →
      p.version = some user.tokenVersion →
      now / 1000 < e →
      refreshAccessToken cfg sf2 now
          (some (TokenStr.signed p cfg.jwtRefreshKey e))
          (updateById st user._id (setTokenVersionUpdate (user.tokenVersion + 1))) =
        { result := Except.error (TokenVerificationError
            "Token version invalid" "VERSION_MISMATCH"),
          log := ["refresh_token_version_mismatch"],
          store := updateById st user._id
            (setTokenVersionUpdate (user.tokenVersion + 1)) }) := by
  have hidu : user._id = userArg._id := findById_some_id hfind
  have hfound : findById
      (updateById st user._id (setTokenVersionUpdate (user.tokenVersion + 1)))
      userArg._id = some { user with tokenVersion := user.tokenVersion + 1 } := by
    rw [findById_updateById st user._id
          (setTokenVersionUpdate (user.tokenVersion + 1)) (fun _ => rfl) userArg._id,
        hfind, Option.map_some', if_pos rfl]
    rfl
  refine ⟨?_, ?_, ?_⟩
  · rw [generateRefreshToken_run cfg sf now userArg st user hval hkey hne hfind]
    unfold jwtSign
    rw [hsig]
  · unfold storeVersion
    rw [hfound, Option.map_some']
  · intro p e sf2 hstored hpid hpver hexp
    unfold refreshAccessToken
    rw [show presentedFalsy (some (TokenStr.signed p cfg.jwtRefreshKey e)) = false
          from rfl]
    simp only [Bool.false_eq_true, if_false]
    rw [show invalidFormatCondition (TokenStr.signed p cfg.jwtRefreshKey e) = false
          from rfl]
    simp only [Bool.false_eq_true, if_false]
    rw [jwtVerify_ok p cfg.jwtRefreshKey e now hexp]
    have hfound2 : findById
        (updateById st user._id (setTokenVersionUpdate (user.tokenVersion + 1)))
        p.id = some { user with tokenVersion := user.tokenVersion + 1 } := by
      rw [hpid]
      exact hfound
    simp only [hfound2]
    simp [hstored, hpver]

/-- Witness for C10: with the always-throwing signing oracle, the second
issuance for `uV1` (stored token `rtok1`, version 1) fails with the
wrapped TokenGenerationError, the store keeps version 2, and the
previously stored `rtok1` is now rejected with VERSION_MISMATCH. -/
theorem sign_failure_keeps_version_increment_witness :
    generateRefreshToken cfg0 sfBoom now0 uV1 stV1 =
      (Except.error (TokenGenerationError
        "Failed to generate refresh token: boom"),
       updateById stV1 uV1._id (setTokenVersionUpdate (uV1.tokenVersion + 1))) ∧
    storeVersion
      (updateById stV1 uV1._id (setTokenVersionUpdate (uV1.tokenVersion + 1)))
      uV1._id = some (uV1.tokenVersion + 1) ∧
    refreshAccessToken cfg0 sf0 now0 (some rtok1)
        (updateById stV1 uV1._id (setTokenVersionUpdate (uV1.tokenVersion + 1))) =
      { result := Except.error (TokenVerificationError
          "Token version invalid" "VERSION_MISMATCH"),
        log := ["refresh_token_version_mismatch"],
        store := updateById stV1 uV1._id
          (setTokenVersionUpdate (uV1.tokenVersion + 1)) } := by
  have h := sign_failure_keeps_version_increment cfg0 sfBoom now0 uV1 stV1 uV1
    "boom" (by decide) (by decide) (by decide) (by decide) (by decide)
  exact ⟨h.1, h.2.1,
    h.2.2 (refreshPayload 1 1 now0) (now0 / 1000 + 604800) sf0
      (by decide) (by decide) (by decide) (by decide)⟩

end FilterDevApp
